import Mathlib

/-! Shallow embedding and verification of the MotorcycleKickstandAlarm firmware
(`src/src/main.cpp`).

The application code (pin constants, the seven states with their enter / exit /
tick callbacks, the thirteen guarded transitions, `setup`, and `check_button`)
is translated directly from `main.cpp`.  Two collaborators are not part of the
sources and are modelled from the design document:

* the `TinyStateMachine` engine (`TinyStateMachine.h`), whose tick / startup
  semantics follow design section 4.1: a tick runs the current state's tick
  callback, then scans the transitions whose source is the current state in
  registration order, and fires the first one whose guard is true (exit
  callback, current-state update, enter callback, then global enter hooks);
  `startup` sets the initial state (the first registered state) and runs its
  enter callback and global hooks without evaluating any guard;
* the AVR `EEPROM` object, whose `update` is write-if-different and whose
  `write` writes unconditionally; the model keeps a count of physical write
  operations so wear-related statements can be expressed.

Arduino `unsigned long` timestamps are 32-bit; they are modelled as naturals
reduced mod 2^32, with `u32sub` the machine subtraction.  Serial logging is
purely observational (design section 6) and is not modelled. -/

namespace KickstandAlarm

/-- 2^32, the modulus of Arduino `unsigned long` arithmetic. -/
def u32 : Nat := 4294967296

/-- Machine subtraction of 32-bit unsigned values: `a - b` computed mod 2^32,
as in `millis() - state_data.state_change_time` in `main.cpp`. -/
def u32sub (a b : Nat) : Nat := (a % u32 + u32 - b % u32) % u32

/-- `ALARM_TRIGGERED_ADDRESS` from `main.cpp` line 6; the only EEPROM address
the program uses. -/
def ALARM_TRIGGERED_ADDRESS : Nat := 0

/-- `ALARM_BEEP_TIME` from `main.cpp` line 18: time on and off in ms. -/
def ALARM_BEEP_TIME : Nat := 1000

/-- State of the non-volatile medium at `ALARM_TRIGGERED_ADDRESS` (the single
byte the program touches), together with a count of physical write operations
performed on the medium, used to express wear / write-if-different facts. -/
structure EEPROMState where
  cell : Nat
  writeCount : Nat
deriving DecidableEq

/-- Modelled from the spec: the non-volatile byte-storage driver is an external
collaborator (design section 6).  `EEPROM.write` stores the byte
unconditionally, performing a physical write every time. -/
def eepromWriteByte (e : EEPROMState) (v : Nat) : EEPROMState :=
  { cell := v, writeCount := e.writeCount + 1 }

/-- Modelled from the spec: `EEPROM.update` / `nv_write_if_changed` stores the
byte only when it differs from the byte already stored; otherwise the medium is
left physically untouched (design section 4.3 and 6). -/
def eepromUpdate (e : EEPROMState) (v : Nat) : EEPROMState :=
  if e.cell = v then e else { cell := v, writeCount := e.writeCount + 1 }

/-- `EEPROM.read`: the byte currently stored at the flag address. -/
def eepromRead (e : EEPROMState) : Nat := e.cell

/-- The seven states of `main.cpp`, in the order they are registered with the
engine (lines 64-139); the engine hands out handles in registration order, so
constructor order is registration order and `START` is the initial state. -/
inductive StateId where
  | START
  | WAIT_FOR_BUTTON_PRESS
  | WAIT_FOR_KICKSTAND_DOWN
  | WAIT_FOR_BUTTON_RELEASE
  | ALARM_ARMED
  | ALARM_TRIGGERED
  | WAIT_FOR_KICKSTAND_UP
deriving DecidableEq

/-- The full mutable state of the firmware: the `state_data` struct
(`alarm_triggered`, `state_change_time`), the EEPROM, the output pins the
program drives (alarm relay, RGB status LED, builtin LED), and the state
machine's current state. -/
structure SysState where
  alarm_triggered : Bool
  state_change_time : Nat
  eeprom : EEPROMState
  alarmPin : Bool
  ledR : Nat
  ledG : Nat
  ledB : Nat
  ledBuiltin : Nat
  current : StateId
deriving DecidableEq

/-- The environment observed during one tick: the value of `millis()` (as a
mathematical instant; the hardware counter reads it mod 2^32) and, for the two
input pins, the raw `digitalRead` levels returned by successive samples.  The
pins use `INPUT_PULLUP`, so a raw reading of `false` (LOW) means the switch is
closed, i.e. the button is pressed / the kickstand is down. -/
structure Env where
  now : Nat
  buttonReads : Nat → Bool
  kickstandReads : Nat → Bool

/-- The sampling loop of `check_button` (`main.cpp` lines 245-250): after `n`
iterations, `total_pressed` holds the number of samples among the first `n`
whose raw `digitalRead` was LOW (`!digitalRead(pin)` incremented the count). -/
def total_pressed (reads : Nat → Bool) : Nat → Nat
  | 0 => 0
  | n + 1 => total_pressed reads n + (if reads n then 0 else 1)

/-- `check_button` (`main.cpp` lines 230-253): sample the pin `num_checks = 20`
times and report pressed only when every sample read LOW. -/
def check_button (reads : Nat → Bool) : Bool :=
  total_pressed reads 20 == 20

/-- `set_status_led` (`main.cpp` lines 255-259): drive the three LED
channels. -/
def set_status_led (s : SysState) (r g b : Nat) : SysState :=
  { s with ledR := r, ledG := g, ledB := b }

/-- The enter callbacks registered for each state (`main.cpp` lines 64-139).
`OFF` is `0,0,0`, `RED` is `255,0,0`, `GREEN` is `0,255,0` (lines 14-16);
`true` and `false` stored to EEPROM are the bytes 1 and 0, and a byte read into
the C++ `bool` `alarm_triggered` is true exactly when nonzero. -/
def enterCallback : StateId → SysState → SysState
  | .START => fun s =>
      let s := { s with alarm_triggered := eepromRead s.eeprom != 0 }
      let s := set_status_led s 0 255 0
      { s with ledBuiltin := 0 }
  | .WAIT_FOR_BUTTON_PRESS => fun s =>
      let s := set_status_led s 0 0 0
      { s with ledBuiltin := 255 }
  | .WAIT_FOR_KICKSTAND_DOWN => fun s => set_status_led s 0 255 0
  | .WAIT_FOR_BUTTON_RELEASE => fun s => set_status_led s 255 0 0
  | .ALARM_ARMED => fun s =>
      let s := set_status_led s 0 0 0
      { s with alarmPin := false }
  | .ALARM_TRIGGERED => fun s =>
      let s := { s with alarmPin := true }
      let s := { s with eeprom := eepromUpdate s.eeprom 1 }
      let s := { s with alarm_triggered := true }
      set_status_led s 0 0 0
  | .WAIT_FOR_KICKSTAND_UP => fun s => set_status_led s 255 0 0

/-- The exit callbacks: only `WAIT_FOR_KICKSTAND_UP` registers one
(`main.cpp` lines 134-138); it silences the relay and clears the persisted
flag. -/
def exitCallback : StateId → SysState → SysState
  | .WAIT_FOR_KICKSTAND_UP => fun s =>
      let s := { s with alarmPin := false }
      let s := { s with eeprom := eepromUpdate s.eeprom 0 }
      { s with alarm_triggered := false }
  | _ => fun s => s

/-- The tick (loop) callbacks: only `ALARM_TRIGGERED` registers one
(`main.cpp` lines 118-125); it beeps the relay, HIGH when
`(elapsed / ALARM_BEEP_TIME)` is even and LOW when odd. -/
def tickCallback : StateId → Env → SysState → SysState
  | .ALARM_TRIGGERED => fun env s =>
      let time_since_start_ms := u32sub env.now s.state_change_time
      if (time_since_start_ms / ALARM_BEEP_TIME) % 2 == 0 then
        { s with alarmPin := true }
      else
        { s with alarmPin := false }
  | _ => fun _ s => s

/-- The global enter hook (`main.cpp` lines 142-145): stamp
`state_change_time = millis()` on every state entry. -/
def everyStateEnter (env : Env) (s : SysState) : SysState :=
  { s with state_change_time := env.now % u32 }

/-- Guard of `START -> ALARM_TRIGGERED` (`main.cpp` lines 148-151). -/
def guard_start_to_triggered : Env → SysState → Bool :=
  fun _ s => s.alarm_triggered

/-- Guard of `START -> WAIT_FOR_BUTTON_PRESS` (lines 154-156). -/
def guard_start_to_wait_press : Env → SysState → Bool :=
  fun _ s => !s.alarm_triggered

/-- Guard of `WAIT_FOR_BUTTON_PRESS -> WAIT_FOR_KICKSTAND_DOWN`
(lines 161-163). -/
def guard_wait_press_to_stand_down : Env → SysState → Bool :=
  fun env _ => check_button env.buttonReads

/-- Guard of `WAIT_FOR_KICKSTAND_DOWN -> WAIT_FOR_BUTTON_PRESS`
(lines 166-168). -/
def guard_stand_down_to_wait_press : Env → SysState → Bool :=
  fun env _ => !check_button env.buttonReads

/-- Guard of `WAIT_FOR_KICKSTAND_DOWN -> WAIT_FOR_BUTTON_RELEASE`
(lines 171-173). -/
def guard_stand_down_to_release : Env → SysState → Bool :=
  fun env _ => check_button env.kickstandReads

/-- Guard of `WAIT_FOR_BUTTON_RELEASE -> WAIT_FOR_KICKSTAND_DOWN`
(lines 178-180). -/
def guard_release_to_stand_down : Env → SysState → Bool :=
  fun env _ => !check_button env.kickstandReads

/-- Guard of `WAIT_FOR_BUTTON_RELEASE -> ALARM_ARMED` (lines 183-185). -/
def guard_release_to_armed : Env → SysState → Bool :=
  fun env _ => !check_button env.buttonReads

/-- Guard of `ALARM_ARMED -> ALARM_TRIGGERED` (lines 188-190). -/
def guard_armed_to_triggered : Env → SysState → Bool :=
  fun env _ => !check_button env.kickstandReads

/-- Guard of `ALARM_ARMED -> WAIT_FOR_BUTTON_RELEASE` (lines 193-195). -/
def guard_armed_to_release : Env → SysState → Bool :=
  fun env _ => check_button env.buttonReads

/-- Guard of `ALARM_TRIGGERED -> WAIT_FOR_KICKSTAND_UP` (lines 199-201). -/
def guard_triggered_to_stand_up : Env → SysState → Bool :=
  fun env _ => check_button env.buttonReads && check_button env.kickstandReads

/-- Guard of `ALARM_TRIGGERED -> ALARM_ARMED` (lines 205-209): kickstand down
and at least 120000 ms (2 min) elapsed since the state was entered. -/
def guard_triggered_to_armed : Env → SysState → Bool :=
  fun env s =>
    check_button env.kickstandReads &&
      decide (120000 ≤ u32sub env.now s.state_change_time)

/-- Guard of `WAIT_FOR_KICKSTAND_UP -> WAIT_FOR_KICKSTAND_DOWN`
(lines 212-214). -/
def guard_stand_up_to_stand_down : Env → SysState → Bool :=
  fun env _ => !check_button env.kickstandReads

/-- Guard of `WAIT_FOR_KICKSTAND_UP -> ALARM_TRIGGERED` (lines 217-219). -/
def guard_stand_up_to_triggered : Env → SysState → Bool :=
  fun env _ => !check_button env.buttonReads

/-- The transition table, in the exact registration order of
`main.cpp` lines 148-219 (source, target, guard). -/
def transitions : List (StateId × StateId × (Env → SysState → Bool)) :=
  [ (.START, .ALARM_TRIGGERED, guard_start_to_triggered),
    (.START, .WAIT_FOR_BUTTON_PRESS, guard_start_to_wait_press),
    (.WAIT_FOR_BUTTON_PRESS, .WAIT_FOR_KICKSTAND_DOWN, guard_wait_press_to_stand_down),
    (.WAIT_FOR_KICKSTAND_DOWN, .WAIT_FOR_BUTTON_PRESS, guard_stand_down_to_wait_press),
    (.WAIT_FOR_KICKSTAND_DOWN, .WAIT_FOR_BUTTON_RELEASE, guard_stand_down_to_release),
    (.WAIT_FOR_BUTTON_RELEASE, .WAIT_FOR_KICKSTAND_DOWN, guard_release_to_stand_down),
    (.WAIT_FOR_BUTTON_RELEASE, .ALARM_ARMED, guard_release_to_armed),
    (.ALARM_ARMED, .ALARM_TRIGGERED, guard_armed_to_triggered),
    (.ALARM_ARMED, .WAIT_FOR_BUTTON_RELEASE, guard_armed_to_release),
    (.ALARM_TRIGGERED, .WAIT_FOR_KICKSTAND_UP, guard_triggered_to_stand_up),
    (.ALARM_TRIGGERED, .ALARM_ARMED, guard_triggered_to_armed),
    (.WAIT_FOR_KICKSTAND_UP, .WAIT_FOR_KICKSTAND_DOWN, guard_stand_up_to_stand_down),
    (.WAIT_FOR_KICKSTAND_UP, .ALARM_TRIGGERED, guard_stand_up_to_triggered) ]

/-- Modelled from the spec: the engine's transition scan (design section 4.1):
walk the registered transitions in order, skip those whose source is not the
current state, and return the target of the first one whose guard evaluates to
true; `none` when no guard matches.  Guards of transitions whose source is not
the current state are not evaluated. -/
def scanTrans (env : Env) (s : SysState) :
    List (StateId × StateId × (Env → SysState → Bool)) → Option StateId
  | [] => none
  | (src, dst, g) :: rest =>
      if src = s.current then
        if g env s then some dst else scanTrans env s rest
      else scanTrans env s rest

/-- Modelled from the spec: firing a transition (design section 4.1): run the
current state's exit callback, update the current state, run the new state's
enter callback, then the global enter hooks. -/
def fireTransition (env : Env) (dst : StateId) (s : SysState) : SysState :=
  let s := exitCallback s.current s
  let s := { s with current := dst }
  let s := enterCallback dst s
  everyStateEnter env s

/-- Modelled from the spec: one engine tick (design section 4.1): run the
current state's tick callback, scan the transitions from the current state in
registration order, and fire the first whose guard is true; at most one
transition fires, and a tick with no matching guard changes nothing further. -/
def tick (env : Env) (s : SysState) : SysState :=
  let s := tickCallback s.current env s
  match scanTrans env s transitions with
  | none => s
  | some dst => fireTransition env dst s

/-- Modelled from the spec: `tsm.startup()` (design section 4.1): set the
current state to the initial state (the first registered state, `START`) and
run its enter callback and the global enter hooks, evaluating no guard. -/
def startup (env : Env) (s : SysState) : SysState :=
  let s := { s with current := StateId.START }
  let s := enterCallback StateId.START s
  everyStateEnter env s

/-- `setup()` (`main.cpp` lines 45-223), the parts that touch modelled state:
stamp `state_change_time = millis()` (line 59), write `false` (byte 0) to the
flag address with the unconditional `EEPROM.write` (line 60), clear
`state_data.alarm_triggered` (line 61), then — after registering states and
transitions — call `tsm.startup()` (line 222).  Output pins start LOW after
`pinMode(..., OUTPUT)`. -/
def setup (env : Env) (e0 : EEPROMState) : SysState :=
  let s : SysState :=
    { alarm_triggered := false
      state_change_time := env.now % u32
      eeprom := eepromWriteByte e0 0
      alarmPin := false
      ledR := 0
      ledG := 0
      ledB := 0
      ledBuiltin := 0
      current := StateId.START }
  startup env s

/-- Coherence of the trigger flag: the RAM copy `state_data.alarm_triggered`
agrees with the truth value of the byte persisted at the flag address. -/
def flag_coherent (s : SysState) : Prop :=
  s.alarm_triggered = (s.eeprom.cell != 0)

instance (s : SysState) : Decidable (flag_coherent s) := by
  unfold flag_coherent
  infer_instance

/-- After `n` iterations the counter is at most `n`. -/
theorem total_pressed_le (reads : Nat → Bool) (n : Nat) :
    total_pressed reads n ≤ n := by
  induction n with
  | zero => simp [total_pressed]
  | succ n ih =>
    unfold total_pressed
    split <;> omega

/-- The counter reaches `n` exactly when every one of the first `n` raw
samples read LOW. -/
theorem total_pressed_eq_iff (reads : Nat → Bool) (n : Nat) :
    total_pressed reads n = n ↔ ∀ i, i < n → reads i = false := by
  induction n with
  | zero => simp [total_pressed]
  | succ n ih =>
    have hle := total_pressed_le reads n
    rw [Nat.forall_lt_succ]
    cases hr : reads n with
    | true =>
      simp [total_pressed, hr]
      omega
    | false =>
      simp [total_pressed, hr, ← ih]

/-- `check_button` is true exactly when all 20 raw samples read LOW
(closed circuit, i.e. actuated). -/
theorem check_button_iff (reads : Nat → Bool) :
    check_button reads = true ↔ ∀ i, i < 20 → reads i = false := by
  unfold check_button
  rw [beq_iff_eq]
  exact total_pressed_eq_iff reads 20

/-- The tick callback never changes the current state. -/
theorem tickCallback_current (st : StateId) (env : Env) (s : SysState) :
    (tickCallback st env s).current = s.current := by
  cases st <;> first
    | rfl
    | (simp only [tickCallback]; split <;> rfl)

/-- The tick callback never changes the state-entry timestamp. -/
theorem tickCallback_state_change_time (st : StateId) (env : Env) (s : SysState) :
    (tickCallback st env s).state_change_time = s.state_change_time := by
  cases st <;> first
    | rfl
    | (simp only [tickCallback]; split <;> rfl)

/-- The tick callback never changes the RAM trigger flag. -/
theorem tickCallback_alarm_triggered (st : StateId) (env : Env) (s : SysState) :
    (tickCallback st env s).alarm_triggered = s.alarm_triggered := by
  cases st <;> first
    | rfl
    | (simp only [tickCallback]; split <;> rfl)

/-- The tick callback never touches the EEPROM. -/
theorem tickCallback_eeprom (st : StateId) (env : Env) (s : SysState) :
    (tickCallback st env s).eeprom = s.eeprom := by
  cases st <;> first
    | rfl
    | (simp only [tickCallback]; split <;> rfl)

/-- Enter callbacks never change the current state. -/
theorem enterCallback_current (st : StateId) (s : SysState) :
    (enterCallback st s).current = s.current := by
  cases st <;> rfl

/-- Exit callbacks never change the current state. -/
theorem exitCallback_current (st : StateId) (s : SysState) :
    (exitCallback st s).current = s.current := by
  cases st <;> rfl

/-- Firing a transition leaves the machine in the transition's target state. -/
theorem fireTransition_current (env : Env) (dst : StateId) (s : SysState) :
    (fireTransition env dst s).current = dst := by
  unfold fireTransition everyStateEnter
  simp [enterCallback_current]

/-- Beep phase arithmetic: the half-period parity test of the tick callback is
the 2000 ms-window test of the design document. -/
theorem beep_phase (t : Nat) : (t / 1000) % 2 = 0 ↔ t % 2000 < 1000 := by
  omega

/-- A concrete environment: counter at 0, both switches open (raw HIGH). -/
def envOpen : Env := ⟨0, fun _ => true, fun _ => true⟩

/-- C2: on every boot `setup()` unconditionally stores byte 0 (false) at the
persisted-flag address and clears `state_data.alarm_triggered` before the
machine starts, so the flag `START`'s enter callback loads from EEPROM is
always false and the first tick always leaves `START` for
`WAIT_FOR_BUTTON_PRESS`, whatever byte was persisted before power-off. -/
theorem setup_clears_persisted_flag (env envT : Env) (e0 : EEPROMState) :
    (setup env e0).eeprom.cell = 0 ∧
    (setup env e0).alarm_triggered = false ∧
    (setup env e0).current = StateId.START ∧
    (tick envT (setup env e0)).current = StateId.WAIT_FOR_BUTTON_PRESS :=
  ⟨rfl, rfl, rfl, rfl⟩

/-- C1 (evaluation of the code at the failing input): even when the byte
persisted before power loss is 1 (trigger flag true), the state after
`setup()` (which includes `tsm.startup()`) and one `tick()` is
`WAIT_FOR_BUTTON_PRESS`, not `ALARM_TRIGGERED` as the startup-recovery
property requires: `setup()` erases the persisted flag at `main.cpp` line 60
before `START`'s enter callback reads it at line 65. -/
theorem startup_recovery_defeated (env envT : Env) (w : Nat) :
    (tick envT (setup env { cell := 1, writeCount := w })).current
        = StateId.WAIT_FOR_BUTTON_PRESS ∧
    (tick envT (setup env { cell := 1, writeCount := w })).current
        ≠ StateId.ALARM_TRIGGERED := by
  have h1 : (tick envT (setup env { cell := 1, writeCount := w })).current
      = StateId.WAIT_FOR_BUTTON_PRESS := rfl
  rw [h1]
  exact ⟨rfl, by decide⟩

/-- C3: Debounce unanimity: `check_button` returns true exactly when all
`num_checks = 20` raw samples indicate actuation (read LOW under
`INPUT_PULLUP`); one non-actuated sample among the 20 forces false, and the
function is total, so sensor ambiguity never raises an error. -/
theorem check_button_unanimous (reads : Nat → Bool) :
    check_button reads = true ↔ ∀ i, i < 20 → reads i = false :=
  check_button_iff reads

/-- C6: every entry into `ALARM_TRIGGERED` drives the relay HIGH, persists
byte 1 (trigger true), sets `alarm_triggered`, and turns the status LED off;
every exit from `WAIT_FOR_KICKSTAND_UP` drives the relay LOW, persists byte 0
(trigger false), and clears `alarm_triggered`. -/
theorem alarm_entry_exit_effects (s : SysState) :
    ((enterCallback StateId.ALARM_TRIGGERED s).alarmPin = true ∧
     (enterCallback StateId.ALARM_TRIGGERED s).eeprom.cell = 1 ∧
     (enterCallback StateId.ALARM_TRIGGERED s).alarm_triggered = true ∧
     (enterCallback StateId.ALARM_TRIGGERED s).ledR = 0 ∧
     (enterCallback StateId.ALARM_TRIGGERED s).ledG = 0 ∧
     (enterCallback StateId.ALARM_TRIGGERED s).ledB = 0) ∧
    ((exitCallback StateId.WAIT_FOR_KICKSTAND_UP s).alarmPin = false ∧
     (exitCallback StateId.WAIT_FOR_KICKSTAND_UP s).eeprom.cell = 0 ∧
     (exitCallback StateId.WAIT_FOR_KICKSTAND_UP s).alarm_triggered = false) := by
  refine ⟨⟨rfl, ?_, rfl, rfl, rfl, rfl⟩, rfl, ?_, rfl⟩ <;>
    · simp only [enterCallback, exitCallback, set_status_led, eepromUpdate]
      split <;> simp_all

/-- C8 counterexample: with byte 0 (trigger false) already stored, `setup()`
stores 0 again through the unconditional `EEPROM.write` (`main.cpp` line 60)
and the medium undergoes a physical write, so it is false that every
trigger-flag write of the program leaves the medium untouched when the stored
byte already equals the value written. -/
theorem setup_rewrites_equal_byte :
    (⟨0, 0⟩ : EEPROMState).cell = 0 ∧
    (setup envOpen ⟨0, 0⟩).eeprom.writeCount = 1 :=
  ⟨rfl, rfl⟩

/-- C8 amended: the two trigger-flag stores issued from state callbacks
(`ALARM_TRIGGERED` enter, `WAIT_FOR_KICKSTAND_UP` exit) use the
write-if-different `EEPROM.update` and leave the medium physically untouched
exactly when the stored byte already equals the value written; the boot-time
store in `setup()` uses `EEPROM.write` and performs a physical write
unconditionally. -/
theorem persisted_flag_write_behavior (env : Env) (s : SysState)
    (e0 : EEPROMState) :
    ((enterCallback StateId.ALARM_TRIGGERED s).eeprom.writeCount =
        if s.eeprom.cell = 1 then s.eeprom.writeCount
        else s.eeprom.writeCount + 1) ∧
    ((exitCallback StateId.WAIT_FOR_KICKSTAND_UP s).eeprom.writeCount =
        if s.eeprom.cell = 0 then s.eeprom.writeCount
        else s.eeprom.writeCount + 1) ∧
    ((setup env e0).eeprom.writeCount = e0.writeCount + 1) := by
  refine ⟨?_, ?_, rfl⟩ <;>
    · simp only [enterCallback, exitCallback, set_status_led, eepromUpdate]
      split <;> simp_all

/-- C9: both elapsed-time computations of the program (the beep-phase
computation of the `ALARM_TRIGGERED` tick callback and the auto-reset guard)
are the unsigned 32-bit subtraction `millis() - state_change_time`, and that
subtraction recovers the true elapsed milliseconds whenever fewer than 2^32 ms
have passed since state entry, even when the counter wraps in between. -/
theorem elapsed_time_wraparound (entry d : Nat) (hd : d < u32) :
    u32sub ((entry + d) % u32) (entry % u32) = d ∧
    (∀ env s, (tickCallback StateId.ALARM_TRIGGERED env s).alarmPin =
        ((u32sub env.now s.state_change_time / ALARM_BEEP_TIME) % 2 == 0)) ∧
    (∀ env s, guard_triggered_to_armed env s =
        (check_button env.kickstandReads &&
          decide (120000 ≤ u32sub env.now s.state_change_time))) := by
  refine ⟨?_, ?_, fun env s => rfl⟩
  · simp only [u32sub, u32] at hd ⊢
    omega
  · intro env s
    simp only [tickCallback]
    split <;> simp_all

/-- Witness for C9 at a wrapping input: entry 5000 ms before the counter
wraps, read 6000 ms later (counter already wrapped), elapsed is recovered. -/
theorem elapsed_time_wraparound_witness :
    u32sub ((4294962296 + 6000) % u32) (4294962296 % u32) = 6000 :=
  (elapsed_time_wraparound 4294962296 6000 (by decide)).1

/-- The transition scan from `ALARM_TRIGGERED`: the transition to
`WAIT_FOR_KICKSTAND_UP` (registered first, `main.cpp` line 199) is consulted
before the auto-reset transition to `ALARM_ARMED` (line 205). -/
theorem scanTrans_from_triggered (env : Env) (s : SysState)
    (h : s.current = StateId.ALARM_TRIGGERED) :
    scanTrans env s transitions =
      if check_button env.buttonReads && check_button env.kickstandReads then
        some StateId.WAIT_FOR_KICKSTAND_UP
      else if check_button env.kickstandReads &&
          decide (120000 ≤ u32sub env.now s.state_change_time) then
        some StateId.ALARM_ARMED
      else none := by
  cases hb : check_button env.buttonReads <;>
    cases hk : check_button env.kickstandReads <;>
      simp [transitions, scanTrans, h, hb, hk,
        guard_triggered_to_stand_up, guard_triggered_to_armed]

/-- C4: Beep parity: on a tick that stays in `ALARM_TRIGGERED`, with `t` the
machine elapsed time since the entry timestamp stamped by the global enter
hook, the relay is driven HIGH exactly when `t mod 2000` falls in `[0,1000)`
(and hence LOW when it falls in `[1000,2000)`). -/
theorem alarm_beep_parity (env : Env) (s : SysState)
    (h1 : s.current = StateId.ALARM_TRIGGERED)
    (h2 : (tick env s).current = StateId.ALARM_TRIGGERED) :
    ((tick env s).alarmPin = true ↔
      u32sub env.now s.state_change_time % 2000 < 1000) := by
  have hcur : (tickCallback s.current env s).current = StateId.ALARM_TRIGGERED := by
    rw [tickCallback_current, h1]
  have hscan := scanTrans_from_triggered env (tickCallback s.current env s) hcur
  rw [tickCallback_state_change_time] at hscan
  simp only [tick] at h2 ⊢
  by_cases hbk : (check_button env.buttonReads && check_button env.kickstandReads) = true
  · rw [hscan, if_pos hbk] at h2
    simp [fireTransition_current] at h2
  · by_cases hka : (check_button env.kickstandReads &&
        decide (120000 ≤ u32sub env.now s.state_change_time)) = true
    · rw [hscan, if_neg hbk, if_pos hka] at h2
      simp [fireTransition_current] at h2
    · rw [hscan, if_neg hbk, if_neg hka]
      rw [h1]
      simp only [tickCallback, ALARM_BEEP_TIME]
      have hphase := beep_phase (u32sub env.now s.state_change_time)
      split <;> simp_all

/-- C5: Auto-reset timing: in `ALARM_TRIGGERED` with the kickstand
continuously actuated (every raw sample LOW), the transition to `ALARM_ARMED`
never fires on a tick whose elapsed time since entry is below 120000 ms, and
on any tick at or past 120000 ms, provided the higher-priority transition to
`WAIT_FOR_KICKSTAND_UP` does not fire (the button is not actuated), the
machine moves to `ALARM_ARMED`. -/
theorem alarm_auto_reset_timing (env : Env) (s : SysState)
    (h1 : s.current = StateId.ALARM_TRIGGERED)
    (hk : ∀ i, i < 20 → env.kickstandReads i = false) :
    (u32sub env.now s.state_change_time < 120000 →
        (tick env s).current ≠ StateId.ALARM_ARMED) ∧
    (120000 ≤ u32sub env.now s.state_change_time →
      check_button env.buttonReads = false →
        (tick env s).current = StateId.ALARM_ARMED) := by
  have hkb : check_button env.kickstandReads = true := (check_button_iff _).mpr hk
  have hcur : (tickCallback s.current env s).current = StateId.ALARM_TRIGGERED := by
    rw [tickCallback_current, h1]
  have hscan := scanTrans_from_triggered env (tickCallback s.current env s) hcur
  rw [tickCallback_state_change_time] at hscan
  constructor
  · intro hlt
    have hd : decide (120000 ≤ u32sub env.now s.state_change_time) = false := by
      simp
      omega
    simp only [tick]
    rw [hscan, hkb, hd]
    cases hb : check_button env.buttonReads <;>
      simp [fireTransition_current, hcur]
  · intro hge hb
    have hd : decide (120000 ≤ u32sub env.now s.state_change_time) = true := by
      simpa using hge
    simp only [tick]
    rw [hscan, hkb, hd, hb]
    simp [fireTransition_current]

/-- C7: Tie-break by registration order: on a tick in `ALARM_TRIGGERED` where
both outgoing guards are true (button and kickstand actuated and at least
120000 ms elapsed), the earlier-registered transition fires and the machine
moves to `WAIT_FOR_KICKSTAND_UP`, not `ALARM_ARMED`; the engine fires at most
one transition per tick. -/
theorem tie_break_registration_order (env : Env) (s : SysState)
    (h1 : s.current = StateId.ALARM_TRIGGERED)
    (hb : check_button env.buttonReads = true)
    (hk : check_button env.kickstandReads = true)
    (ht : 120000 ≤ u32sub env.now s.state_change_time) :
    guard_triggered_to_stand_up env s = true ∧
    guard_triggered_to_armed env s = true ∧
    (tick env s).current = StateId.WAIT_FOR_KICKSTAND_UP := by
  have hcur : (tickCallback s.current env s).current = StateId.ALARM_TRIGGERED := by
    rw [tickCallback_current, h1]
  have hscan := scanTrans_from_triggered env (tickCallback s.current env s) hcur
  refine ⟨by simp [guard_triggered_to_stand_up, hb, hk],
    by simp [guard_triggered_to_armed, hk, ht], ?_⟩
  simp only [tick]
  rw [hscan, hb, hk]
  simp [fireTransition_current]

/-- Enter callbacks establish or preserve flag coherence: `START` re-reads the
persisted byte into the RAM flag, `ALARM_TRIGGERED` sets both together, and
the rest touch neither. -/
theorem enterCallback_flag_coherent (st : StateId) (s : SysState)
    (h : flag_coherent s) : flag_coherent (enterCallback st s) := by
  cases st <;>
    simp only [flag_coherent, enterCallback, set_status_led, eepromRead,
      eepromUpdate] at h ⊢ <;>
    first
      | rfl
      | exact h
      | (split <;> simp_all)

/-- Exit callbacks preserve flag coherence: `WAIT_FOR_KICKSTAND_UP` clears
both copies together and the rest touch neither. -/
theorem exitCallback_flag_coherent (st : StateId) (s : SysState)
    (h : flag_coherent s) : flag_coherent (exitCallback st s) := by
  cases st <;>
    first
      | simpa [flag_coherent, exitCallback] using h
      | (simp only [flag_coherent, exitCallback, eepromUpdate]
         split <;> simp_all)

/-- The tick callback touches neither flag copy. -/
theorem tickCallback_flag_coherent (st : StateId) (env : Env) (s : SysState)
    (h : flag_coherent s) : flag_coherent (tickCallback st env s) := by
  unfold flag_coherent at h ⊢
  rw [tickCallback_alarm_triggered, tickCallback_eeprom]
  exact h

/-- The global enter hook touches neither flag copy. -/
theorem everyStateEnter_flag_coherent (env : Env) (s : SysState)
    (h : flag_coherent s) : flag_coherent (everyStateEnter env s) := h

/-- Firing a transition preserves flag coherence. -/
theorem fireTransition_flag_coherent (env : Env) (dst : StateId) (s : SysState)
    (h : flag_coherent s) : flag_coherent (fireTransition env dst s) := by
  unfold fireTransition
  exact everyStateEnter_flag_coherent _ _
    (enterCallback_flag_coherent _ _ (exitCallback_flag_coherent _ _ h))

/-- A whole engine tick preserves flag coherence, whatever the inputs. -/
theorem tick_flag_coherent (env : Env) (s : SysState)
    (h : flag_coherent s) : flag_coherent (tick env s) := by
  simp only [tick]
  have h1 := tickCallback_flag_coherent s.current env s h
  cases hscan : scanTrans env (tickCallback s.current env s) transitions with
  | none => exact h1
  | some dst => exact fireTransition_flag_coherent env dst _ h1

/-- `startup` establishes flag coherence (the `START` enter callback loads the
persisted byte into the RAM flag). -/
theorem startup_flag_coherent (env : Env) (s : SysState) :
    flag_coherent (startup env s) := by
  unfold startup
  exact everyStateEnter_flag_coherent _ _
    (by simp [flag_coherent, enterCallback, set_status_led, eepromRead])

/-- `setup()` establishes flag coherence: byte 0 stored, RAM flag cleared. -/
theorem setup_flag_coherent (env : Env) (e0 : EEPROMState) :
    flag_coherent (setup env e0) :=
  startup_flag_coherent env _

/-- C10: Flag coherence invariant: `state_data.alarm_triggered` equals the
truth value of the byte persisted at the flag address after `setup()`
completes and after every state enter or exit callback completes; the
invariant is established by `setup`/`startup` and preserved by every enter
callback, every exit callback, and every full engine tick. -/
theorem flag_coherence_invariant (env : Env) (e0 : EEPROMState) (st : StateId)
    (s : SysState) (h : flag_coherent s) :
    flag_coherent (setup env e0) ∧
    flag_coherent (enterCallback st s) ∧
    flag_coherent (exitCallback st s) ∧
    flag_coherent (startup env s) ∧
    flag_coherent (tick env s) :=
  ⟨setup_flag_coherent env e0, enterCallback_flag_coherent st s h,
   exitCallback_flag_coherent st s h, startup_flag_coherent env s,
   tick_flag_coherent env s h⟩

/-- A concrete armed-and-triggered system state: machine in `ALARM_TRIGGERED`,
entry stamped at 0 ms, byte 1 persisted, relay HIGH, LED off. -/
def sTrig : SysState :=
  ⟨true, 0, ⟨1, 3⟩, true, 0, 0, 0, 0, StateId.ALARM_TRIGGERED⟩

/-- A concrete environment 500 ms after entry with both switches open. -/
def envOpen500 : Env := ⟨500, fun _ => true, fun _ => true⟩

/-- Witness for C4: 500 ms after entering `ALARM_TRIGGERED`, with both
switches open so no transition fires, the relay is HIGH. -/
theorem alarm_beep_parity_witness : (tick envOpen500 sTrig).alarmPin = true :=
  (alarm_beep_parity envOpen500 sTrig rfl (by decide)).mpr (by decide)

/-- A concrete environment 120000 ms after entry: kickstand closed (raw LOW),
button open (raw HIGH). -/
def envStand120k : Env := ⟨120000, fun _ => true, fun _ => false⟩

/-- Witness for C5: at exactly 120000 ms with the kickstand held down and the
button released, the machine auto-resets to `ALARM_ARMED`. -/
theorem alarm_auto_reset_timing_witness :
    (tick envStand120k sTrig).current = StateId.ALARM_ARMED :=
  (alarm_auto_reset_timing envStand120k sTrig rfl (fun i _ => rfl)).2
    (by decide) (by decide)

/-- A concrete environment 200000 ms after entry with both switches closed
(raw LOW): both guards out of `ALARM_TRIGGERED` are true. -/
def envBoth200k : Env := ⟨200000, fun _ => false, fun _ => false⟩

/-- Witness for C7: with both guards simultaneously true, the machine goes to
`WAIT_FOR_KICKSTAND_UP`, the earlier-registered transition's target. -/
theorem tie_break_registration_order_witness :
    (tick envBoth200k sTrig).current = StateId.WAIT_FOR_KICKSTAND_UP :=
  (tie_break_registration_order envBoth200k sTrig rfl rfl rfl (by decide)).2.2

/-- Witness for C10: coherence holds after a fresh boot and is carried through
a tick from the concrete triggered state. -/
theorem flag_coherence_invariant_witness :
    flag_coherent (setup envOpen ⟨0, 0⟩) ∧ flag_coherent (tick envOpen500 sTrig) := by
  have h := flag_coherence_invariant envOpen ⟨0, 0⟩ StateId.START sTrig (by decide)
  have h2 := flag_coherence_invariant envOpen500 ⟨0, 0⟩ StateId.START sTrig (by decide)
  exact ⟨h.1, h2.2.2.2.2⟩

end KickstandAlarm
